import Mathlib

/-!
Shallow embedding of the AITuberTalk Python SDK floor-control subsystem
(`aitubertalk/dialogue/dialogue_module.py`, `aitubertalk/dialogue/types.py`,
`aitubertalk/rooms/*`, `aitubertalk/client.py`, `aitubertalk/core/*`) and
verification of its specification's claims.

Timestamps (`datetime.now()` in Python) are modelled as natural numbers
counting seconds; each operation that reads the clock takes the current time
as an explicit `now : Nat` argument.  Python exceptions are modelled with
`Except` / explicit error values; the mutable module state
(`self._current_floor_token`) is threaded explicitly.
-/

namespace AITuberTalk

/-- The `ErrorCode` enum from `core/exceptions.py`. -/
inductive ErrorCode where
  | connectionFailed
  | connectionLost
  | reconnectionFailed
  | authFailed
  | authTokenExpired
  | authInsufficientPermission
  | roomNotFound
  | roomFull
  | roomAccessDenied
  | floorDenied
  | floorTimeout
  | floorConflict
  | mediaDeviceNotFound
  | mediaPermissionDenied
  | mediaTrackFailed
  | networkError
  | rateLimitExceeded
  | unknownError
deriving DecidableEq, Repr

/-- The `AITuberTalkError` class from `core/exceptions.py` (the `details` field, unused by
the dialogue module, is omitted). -/
structure AITuberTalkError where
  code : ErrorCode
  message : String
  retryable : Bool
deriving DecidableEq, Repr

/-- The `AITuberConfig` dataclass from `rooms/types.py`. -/
structure AITuberConfig where
  modelId : String
  personality : Option String := none
  voiceId : Option String := none
deriving DecidableEq, Repr

/-- The `Participant` dataclass from `rooms/types.py` (`joined_at` as seconds). -/
structure Participant where
  id : String
  type : String
  name : String
  userId : Option String := none
  aituberConfig : Option AITuberConfig := none
  joinedAt : Option Nat := none
  isActive : Bool := true
deriving DecidableEq, Repr

/-- The `Room` dataclass from `rooms/types.py` (`created_at` as seconds). -/
structure Room where
  id : String
  name : String
  description : Option String
  ownerId : String
  participants : List Participant := []
  maxAitubers : Int := 5
  isPublic : Bool := false
  createdAt : Option Nat := none
deriving DecidableEq, Repr

/-- The membership slice of `RoomModule`'s state that `DialogueModule` reads
through `get_current_room()` / `get_current_participant()`
(`rooms/room_module.py`, fields `_current_room`, `_current_participant`). -/
structure RoomsState where
  currentRoom : Option Room
  currentParticipant : Option Participant
deriving DecidableEq, Repr

/-- The `FloorToken` dataclass from `dialogue/types.py`; times in seconds. -/
structure FloorToken where
  roomId : String
  participantId : String
  grantedAt : Nat
  expiresAt : Nat
  maxDuration : Nat
deriving DecidableEq, Repr

/-- A token is live at `now` when the expiry test of `DialogueModule.speak`
(`datetime.now() > self._current_floor_token.expires_at`) does not fire. -/
def FloorToken.isLive (t : FloorToken) (now : Nat) : Bool :=
  decide (now ≤ t.expiresAt)

/-- The `QueuedParticipant` dataclass from `dialogue/types.py`. -/
structure QueuedParticipant where
  participantId : String
  priority : Int
  queuedAt : Nat
deriving DecidableEq, Repr

/-- The `FloorState` dataclass from `dialogue/types.py`.  `DialogueModule.get_floor_state`
passes the plain strings `"idle"` / `"speaking"` for `state`, so the field is
modelled as the string actually stored. -/
structure FloorState where
  currentHolder : Option String
  state : String
  queue : List QueuedParticipant
  lastStateChange : Nat
deriving DecidableEq, Repr

/-- The mutable state of `DialogueModule`: its `_current_floor_token` slot
(the callback registries are modelled separately with the notification
functions). -/
structure DialogueState where
  currentFloorToken : Option FloorToken
deriving DecidableEq, Repr

/-- Events observable from the dialogue module: the `_notify_floor_granted`
fan-out, the `_notify_floor_denied` fan-out (defined at dialogue_module.py
lines 348-363 but never called by any source operation), and the
`FLOOR_RELEASED` system event emitted by `release_floor`. -/
inductive DialogueEvent where
  | floorGranted (token : FloorToken)
  | floorDenied (reason : String) (position : Int)
  | floorReleased
deriving DecidableEq, Repr

/-- The method `DialogueModule.request_floor` (dialogue_module.py lines 30-86).
If no current room or no current participant, raises
`FLOOR_DENIED "Must be in a room to request floor"`.  Otherwise builds a fresh
token (`granted_at = now`, `expires_at = now + 30`, `max_duration = 30`),
stores it in `_current_floor_token` (unconditionally, replacing any held
token), notifies the floor-granted callbacks and returns the token.
Returns (new state, emitted events, result); the `priority` argument is only
logged by the source, never used. -/
def requestFloor (rooms : RoomsState) (s : DialogueState) (now : Nat)
    (priority : Int) :
    DialogueState × List DialogueEvent × Except AITuberTalkError FloorToken :=
  match rooms.currentRoom, rooms.currentParticipant with
  | some room, some participant =>
      let token : FloorToken :=
        { roomId := room.id
          participantId := participant.id
          grantedAt := now
          expiresAt := now + 30
          maxDuration := 30 }
      ({ currentFloorToken := some token },
       [DialogueEvent.floorGranted token],
       Except.ok token)
  | _, _ =>
      (s, [],
       Except.error
         { code := ErrorCode.floorDenied
           message := "Must be in a room to request floor"
           retryable := false })

/-- The method `DialogueModule.speak` (dialogue_module.py lines 88-136).
`synth` is the outcome of the speech-synthesis collaborator step (the awaited
body after the precondition checks); a Python exception there is caught and
re-raised as `UNKNOWN_ERROR`.  With no token: `FLOOR_DENIED`.  With a token
past `expires_at`: the token is cleared and `FLOOR_TIMEOUT` is raised.
Otherwise the state is left untouched.  Returns (new state, result). -/
def speak (s : DialogueState) (now : Nat) (synth : Except String Unit) :
    DialogueState × Except AITuberTalkError Unit :=
  match s.currentFloorToken with
  | none =>
      (s, Except.error
        { code := ErrorCode.floorDenied
          message := "Must have floor access to speak"
          retryable := false })
  | some token =>
      if now > token.expiresAt then
        ({ currentFloorToken := none },
         Except.error
           { code := ErrorCode.floorTimeout
             message := "Floor token has expired"
             retryable := true })
      else
        match synth with
        | Except.ok _ => (s, Except.ok ())
        | Except.error msg =>
            (s, Except.error
              { code := ErrorCode.unknownError
                message := "Failed to speak: " ++ msg
                retryable := true })

/-- The method `DialogueModule.release_floor` (dialogue_module.py lines 138-164).
With no token held it only logs and returns; otherwise it clears the token and
emits the `FLOOR_RELEASED` system event.  All exceptions are caught and
logged, so the function never raises.  Returns (new state, emitted events). -/
def releaseFloor (s : DialogueState) : DialogueState × List DialogueEvent :=
  match s.currentFloorToken with
  | none => (s, [])
  | some _ => ({ currentFloorToken := none }, [DialogueEvent.floorReleased])

/-- The method `DialogueModule.get_floor_state` (dialogue_module.py lines 220-258).
`current_holder` is the held token's `participant_id` (if any); `state` is the
string `"idle"` when no holder, else `"speaking"`; the queue is always empty
in the source; `last_state_change` is `datetime.now()`. -/
def getFloorState (s : DialogueState) (now : Nat) : FloorState :=
  let currentHolder := s.currentFloorToken.map (fun t => t.participantId)
  { currentHolder := currentHolder
    state := if currentHolder = none then "idle" else "speaking"
    queue := []
    lastStateChange := now }

/-- One client-visible dialogue operation, with the clock value at which it
runs and (for `speak`) the collaborator outcome. -/
inductive DialogueOp where
  | requestFloor (now : Nat) (priority : Int)
  | speak (now : Nat) (synth : Except String Unit)
  | releaseFloor
deriving Repr

/-- Apply one operation to the dialogue state (dropping events/results). -/
def applyOp (rooms : RoomsState) (s : DialogueState) : DialogueOp → DialogueState
  | DialogueOp.requestFloor now priority => (requestFloor rooms s now priority).1
  | DialogueOp.speak now synth => (speak s now synth).1
  | DialogueOp.releaseFloor => (releaseFloor s).1

/-- Run a sequence of operations from a starting state. -/
def runOps (rooms : RoomsState) (s : DialogueState) (ops : List DialogueOp) :
    DialogueState :=
  ops.foldl (applyOp rooms) s

/-- The dialogue module starts with `_current_floor_token = None`. -/
def initialDialogueState : DialogueState :=
  { currentFloorToken := none }

/-- Modelled from the spec: `WaitEntry` of the WaitQueue component
(spec §3, §4.2).  The source repository declares only the mirror type
`QueuedParticipant` (dialogue/types.py) and the always-empty `FloorState.queue`
field; the queue operations themselves are absent from the source. -/
structure WaitEntry where
  participantId : String
  priority : Int
  enqueuedAt : Nat
deriving DecidableEq, Repr

/-- Modelled from the spec: `a` is served strictly before `b` under the
ordering key `(priority DESC, enqueued_at ASC)` (spec §4.2). -/
def WaitEntry.beats (a b : WaitEntry) : Bool :=
  b.priority < a.priority ||
    (a.priority == b.priority && a.enqueuedAt < b.enqueuedAt)

/-- Modelled from the spec: non-strict companion of `WaitEntry.beats`:
`a`'s key `(priority DESC, enqueued_at ASC)` is at or before `b`'s. -/
def WaitEntry.keyLE (a b : WaitEntry) : Bool :=
  b.priority < a.priority ||
    (a.priority == b.priority && a.enqueuedAt ≤ b.enqueuedAt)

/-- Modelled from the spec: scan for the entry served first, keeping the
earlier-scanned entry unless a later one strictly beats it. -/
def selectBest (best : WaitEntry) : List WaitEntry → WaitEntry
  | [] => best
  | e :: rest => selectBest (if e.beats best then e else best) rest

/-- Modelled from the spec: `dequeue_next() -> Optional<WaitEntry>` removes
and returns the highest-priority (earliest-enqueued on ties) entry, `None` if
the queue is empty (spec §4.2). -/
def dequeueNext (q : List WaitEntry) : Option (WaitEntry × List WaitEntry) :=
  match q with
  | [] => none
  | e :: rest =>
      let b := selectBest e rest
      some (b, (e :: rest).erase b)

/-- Drain helper with explicit fuel (one unit per removed entry). -/
def drainAux : Nat → List WaitEntry → List WaitEntry
  | 0, _ => []
  | Nat.succ n, q =>
      match dequeueNext q with
      | none => []
      | some (e, q') => e :: drainAux n q'

/-- Modelled from the spec: the full dequeue order of a queue, obtained by
repeatedly calling `dequeue_next` until the queue is empty. -/
def drain (q : List WaitEntry) : List WaitEntry :=
  drainAux q.length q

/-- A registered event handler of `AITuberTalkClient._emit_event`
(client.py lines 166-182) / the `DialogueModule._notify_*` loops: identified
by position-independent id, its call outcome (normal return, or the exception
it raises) given as data. -/
structure Handler where
  id : Nat
  run : String → Except String Unit

/-- Observable actions of the emit loop: a handler invocation, or the
`logger.error` call made by the `except` arm for that handler. -/
inductive EmitLogEntry where
  | invoked (id : Nat)
  | errorLogged (id : Nat) (msg : String)
deriving DecidableEq, Repr

/-- The method `AITuberTalkClient._emit_event` (client.py lines 166-182), also the shape
of `DialogueModule._notify_floor_granted` (dialogue_module.py lines 332-346):
for each handler in registration order, call it inside `try`; on an
exception, log the error and continue with the next handler.  The function is
total: no handler failure escapes the loop. -/
def emitEvent (handlers : List Handler) (arg : String) : List EmitLogEntry :=
  match handlers with
  | [] => []
  | h :: rest =>
      match h.run arg with
      | Except.ok _ => EmitLogEntry.invoked h.id :: emitEvent rest arg
      | Except.error msg =>
          EmitLogEntry.invoked h.id :: EmitLogEntry.errorLogged h.id msg
            :: emitEvent rest arg

/-- The ids of the handlers that were actually invoked, in call order. -/
def invokedIds : List EmitLogEntry → List Nat
  | [] => []
  | EmitLogEntry.invoked i :: rest => i :: invokedIds rest
  | EmitLogEntry.errorLogged _ _ :: rest => invokedIds rest

/-- The `RetryConfig` dataclass from `core/retry_config.py`; `backoff_multiplier` (a Python
float, 2.0 by default, only ever compared with 0) is modelled as a rational. -/
structure RetryConfig where
  maxAttempts : Int := 3
  initialDelay : Int := 1000
  maxDelay : Int := 10000
  backoffMultiplier : Rat := 2
deriving DecidableEq, Repr

/-- Whether an `Except` result is an error (a raised exception). -/
def exceptIsError {ε α : Type} : Except ε α → Bool
  | Except.error _ => true
  | Except.ok _ => false

/-- The method `RetryConfig.__post_init__` (core/retry_config.py lines 17-25): the
validation run by the dataclass constructor, raising `ValueError` (modelled as
`Except.error` with the message) on the first violated condition. -/
def RetryConfig.postInit (c : RetryConfig) : Except String RetryConfig :=
  if c.maxAttempts < 1 then
    Except.error "max_attempts must be >= 1"
  else if c.initialDelay < 0 || c.maxDelay < 0 then
    Except.error "Delays must be non-negative"
  else if c.initialDelay > c.maxDelay then
    Except.error "initial_delay must not exceed max_delay"
  else if c.backoffMultiplier ≤ 0 then
    Except.error "backoff_multiplier must be > 0"
  else
    Except.ok c

/-- Concrete room used by witnesses and counterexamples. -/
def roomA : Room :=
  { id := "room1", name := "Demo Room", description := none, ownerId := "owner1" }

/-- Concrete participant used by witnesses and counterexamples. -/
def alice : Participant :=
  { id := "alice", type := "human", name := "Alice" }

/-- A second concrete participant. -/
def bob : Participant :=
  { id := "bob", type := "aituber", name := "Bob" }

/-- Membership state: alice is in `roomA`. -/
def roomsAlice : RoomsState :=
  { currentRoom := some roomA, currentParticipant := some alice }

/-- Membership state: not in any room. -/
def roomsEmpty : RoomsState :=
  { currentRoom := none, currentParticipant := none }

/-- The token `request_floor` builds for alice at `now = 0`. -/
def tokenAlice0 : FloorToken :=
  { roomId := "room1", participantId := "alice", grantedAt := 0,
    expiresAt := 30, maxDuration := 30 }

/-- The token `request_floor` builds for alice at `now = 5`. -/
def tokenAlice5 : FloorToken :=
  { roomId := "room1", participantId := "alice", grantedAt := 5,
    expiresAt := 35, maxDuration := 30 }

/-- A token held by bob, granted at `now = 0`. -/
def tokenBob0 : FloorToken :=
  { roomId := "room1", participantId := "bob", grantedAt := 0,
    expiresAt := 30, maxDuration := 30 }

/-- Dialogue state in which alice's token is held. -/
def heldAlice : DialogueState :=
  { currentFloorToken := some tokenAlice0 }

/-- Dialogue state in which bob's token is held. -/
def heldBob : DialogueState :=
  { currentFloorToken := some tokenBob0 }

/-- Claim C1, counterexample: after the single operation
`request_floor` at time 0 (token expires at 30), querying the floor state at
time 31 yields a non-null `current_holder` (with state `"speaking"`), even
though the one held lease is no longer live (`31 > expires_at`); expiry is
enforced only lazily by `speak`, so "current_holder non-null iff a live lease
exists" fails as stated. -/
theorem floor_state_live_iff_counterexample :
    (runOps roomsAlice initialDialogueState
        [DialogueOp.requestFloor 0 1]).currentFloorToken = some tokenAlice0 ∧
    tokenAlice0.isLive 31 = false ∧
    (getFloorState
        (runOps roomsAlice initialDialogueState [DialogueOp.requestFloor 0 1])
        31).currentHolder = some "alice" ∧
    (getFloorState
        (runOps roomsAlice initialDialogueState [DialogueOp.requestFloor 0 1])
        31).state = "speaking" :=
  ⟨rfl, by decide, rfl, rfl⟩

/-- Claim C1, amended: after any sequence of `request_floor`, `speak` and
`release_floor` operations, at most one lease token is held; `get_floor_state`
reports a non-null `current_holder` iff a token is held (whether or not that
token is still within its `expires_at` window — expiry is enforced only lazily
by `speak`), in which case `state` is `"speaking"`; when `current_holder` is
null, `state` is `"idle"`. -/
theorem floor_state_holder_iff_held (rooms : RoomsState)
    (ops : List DialogueOp) (now : Nat) :
    (∀ t1 t2 : FloorToken,
      (runOps rooms initialDialogueState ops).currentFloorToken = some t1 →
      (runOps rooms initialDialogueState ops).currentFloorToken = some t2 →
      t1 = t2) ∧
    ((getFloorState (runOps rooms initialDialogueState ops) now).currentHolder
        ≠ none ↔
      (runOps rooms initialDialogueState ops).currentFloorToken ≠ none) ∧
    ((runOps rooms initialDialogueState ops).currentFloorToken ≠ none →
      (getFloorState (runOps rooms initialDialogueState ops) now).state =
        "speaking") ∧
    ((getFloorState (runOps rooms initialDialogueState ops) now).currentHolder
        = none →
      (getFloorState (runOps rooms initialDialogueState ops) now).state =
        "idle") := by
  cases hs : (runOps rooms initialDialogueState ops).currentFloorToken with
  | none =>
      refine ⟨?_, ?_, ?_, ?_⟩ <;> simp [getFloorState, hs]
  | some t =>
      refine ⟨?_, ?_, ?_, ?_⟩ <;> simp [getFloorState, hs]

/-- Witness for C1 (amended): after a single grant at time 0, the state at
time 5 reports `"speaking"`, and the held token is unique. -/
theorem floor_state_holder_iff_held_witness :
    (getFloorState
        (runOps roomsAlice initialDialogueState [DialogueOp.requestFloor 0 1])
        5).state = "speaking" ∧
    tokenAlice0 = tokenAlice0 :=
  ⟨(floor_state_holder_iff_held roomsAlice [DialogueOp.requestFloor 0 1]
      5).2.2.1 (by decide),
   (floor_state_holder_iff_held roomsAlice [DialogueOp.requestFloor 0 1]
      5).1 tokenAlice0 tokenAlice0 (by decide) (by decide)⟩

/-- Claim C3 (code-bug demonstration): alice already holds a token that is
still live at time 5, yet `request_floor` does not fail with any
duplicate-request error — it builds, stores and returns a fresh lease and
fires the grant notification. -/
theorem request_floor_duplicate_holder_grants :
    tokenAlice0.isLive 5 = true ∧
    heldAlice.currentFloorToken = some tokenAlice0 ∧
    requestFloor roomsAlice heldAlice 5 1 =
      ({ currentFloorToken := some tokenAlice5 },
       [DialogueEvent.floorGranted tokenAlice5],
       Except.ok tokenAlice5) :=
  ⟨by decide, rfl, rfl⟩

/-- Claim C4 (code-bug demonstration): while bob's token is held and still
live at time 5, alice's `request_floor` with priority 5 is granted
immediately — replacing bob's token, emitting only a grant notification
(never a `floor_denied` with a queue position), and the floor-state queue
stays empty. -/
theorem request_floor_busy_grants_immediately :
    tokenBob0.isLive 5 = true ∧
    heldBob.currentFloorToken = some tokenBob0 ∧
    requestFloor roomsAlice heldBob 5 5 =
      ({ currentFloorToken := some tokenAlice5 },
       [DialogueEvent.floorGranted tokenAlice5],
       Except.ok tokenAlice5) ∧
    (getFloorState (requestFloor roomsAlice heldBob 5 5).1 6).queue = [] :=
  ⟨by decide, rfl, rfl, rfl⟩

/-- Claim C5: whenever `speak` is called while a token is held and the current
time strictly exceeds the token's `expires_at`, the call fails with the
lease-expired error (`FLOOR_TIMEOUT`, retryable, message "Floor token has
expired") and, as a side effect, the token slot is cleared, so the lease is
no longer held afterwards. -/
theorem speak_expired_fails_and_clears (s : DialogueState) (t : FloorToken)
    (now : Nat) (synth : Except String Unit)
    (hheld : s.currentFloorToken = some t) (hexp : now > t.expiresAt) :
    speak s now synth =
      ({ currentFloorToken := none },
       Except.error
         { code := ErrorCode.floorTimeout
           message := "Floor token has expired"
           retryable := true }) := by
  unfold speak
  rw [hheld]
  simp [hexp]

/-- Witness for C5 at a concrete state: alice's token expires at 30 and
`speak` is called at 31. -/
theorem speak_expired_fails_and_clears_witness :
    heldAlice.currentFloorToken = some tokenAlice0 ∧ (31 : Nat) > 30 ∧
    speak heldAlice 31 (Except.ok ()) =
      ({ currentFloorToken := none },
       Except.error
         { code := ErrorCode.floorTimeout
           message := "Floor token has expired"
           retryable := true }) :=
  ⟨rfl, by decide,
   speak_expired_fails_and_clears heldAlice tokenAlice0 31 (Except.ok ())
     rfl (by decide)⟩

/-- Claim C6: a `speak` call that fails with any error other than the
lease-expiry error (`FLOOR_TIMEOUT`) leaves the dialogue state — in
particular the held token, its holder and its `expires_at` — unchanged. -/
theorem speak_failed_non_expiry_preserves_lease (s s' : DialogueState)
    (now : Nat) (synth : Except String Unit) (e : AITuberTalkError)
    (hrun : speak s now synth = (s', Except.error e))
    (hne : e.code ≠ ErrorCode.floorTimeout) :
    s' = s := by
  unfold speak at hrun
  cases hs : s.currentFloorToken with
  | none =>
      rw [hs] at hrun
      dsimp only at hrun
      rw [Prod.mk.injEq] at hrun
      exact hrun.1.symm
  | some t =>
      rw [hs] at hrun
      dsimp only at hrun
      by_cases hexp : now > t.expiresAt
      · rw [if_pos hexp, Prod.mk.injEq] at hrun
        injection hrun.2 with h3
        rw [← h3] at hne
        exact absurd rfl hne
      · rw [if_neg hexp] at hrun
        cases synth with
        | ok u =>
            rw [Prod.mk.injEq] at hrun
            exact Except.noConfusion hrun.2
        | error msg =>
            rw [Prod.mk.injEq] at hrun
            exact hrun.1.symm

/-- Witness for C6: a synthesis failure at time 5 (token live until 30)
raises `UNKNOWN_ERROR` and leaves the state unchanged. -/
theorem speak_failed_non_expiry_preserves_lease_witness :
    speak heldAlice 5 (Except.error "boom") =
      (heldAlice,
       Except.error
         { code := ErrorCode.unknownError
           message := "Failed to speak: boom"
           retryable := true }) ∧
    (heldAlice : DialogueState) = heldAlice :=
  ⟨rfl,
   speak_failed_non_expiry_preserves_lease heldAlice heldAlice 5
     (Except.error "boom")
     { code := ErrorCode.unknownError
       message := "Failed to speak: boom"
       retryable := true }
     rfl (by decide)⟩

/-- Claim C7: releasing a held lease emits exactly one `floor_released` event
and clears the token; a second release (and generally any release with no
token held) emits nothing, changes nothing and raises nothing
(`releaseFloor` is total). -/
theorem release_floor_idempotent :
    (∀ s : DialogueState, ∀ t : FloorToken, s.currentFloorToken = some t →
      releaseFloor s =
        ({ currentFloorToken := none }, [DialogueEvent.floorReleased]) ∧
      releaseFloor (releaseFloor s).1 = ((releaseFloor s).1, [])) ∧
    (∀ s : DialogueState, s.currentFloorToken = none →
      releaseFloor s = (s, [])) := by
  constructor
  · intro s t h
    constructor
    · unfold releaseFloor
      rw [h]
    · unfold releaseFloor
      rw [h]
  · intro s h
    unfold releaseFloor
    rw [h]

/-- Witness for C7: double release from alice's held state, and a release
from the initial (no-token) state. -/
theorem release_floor_idempotent_witness :
    heldAlice.currentFloorToken = some tokenAlice0 ∧
    releaseFloor heldAlice =
      ({ currentFloorToken := none }, [DialogueEvent.floorReleased]) ∧
    releaseFloor (releaseFloor heldAlice).1 = ((releaseFloor heldAlice).1, []) ∧
    releaseFloor initialDialogueState = (initialDialogueState, []) :=
  ⟨rfl,
   (release_floor_idempotent.1 heldAlice tokenAlice0 rfl).1,
   (release_floor_idempotent.1 heldAlice tokenAlice0 rfl).2,
   release_floor_idempotent.2 initialDialogueState rfl⟩

/-- Claim C8: when there is no current room or no current participant,
`request_floor` fails with the membership error (`FLOOR_DENIED`,
"Must be in a room to request floor", non-retryable), the dialogue state is
unchanged, and no event (in particular no grant notification) is emitted. -/
theorem request_floor_not_in_room_fails (rooms : RoomsState)
    (s : DialogueState) (now : Nat) (priority : Int)
    (h : rooms.currentRoom = none ∨ rooms.currentParticipant = none) :
    requestFloor rooms s now priority =
      (s, [],
       Except.error
         { code := ErrorCode.floorDenied
           message := "Must be in a room to request floor"
           retryable := false }) := by
  unfold requestFloor
  cases hr : rooms.currentRoom with
  | none => rfl
  | some room =>
      cases hp : rooms.currentParticipant with
      | none => rfl
      | some participant =>
          rcases h with h | h
          · rw [hr] at h
            exact absurd h (by simp)
          · rw [hp] at h
            exact absurd h (by simp)

/-- Witness for C8: requesting the floor while in no room. -/
theorem request_floor_not_in_room_fails_witness :
    roomsEmpty.currentRoom = none ∧
    requestFloor roomsEmpty initialDialogueState 0 1 =
      (initialDialogueState, [],
       Except.error
         { code := ErrorCode.floorDenied
           message := "Must be in a room to request floor"
           retryable := false }) :=
  ⟨rfl,
   request_floor_not_in_room_fails roomsEmpty initialDialogueState 0 1
     (Or.inl rfl)⟩

/-- Claim C9: the emit loop invokes every registered handler in registration
order, whatever each handler's outcome is; a raising handler is logged and
does not prevent later handlers from being invoked, and no handler exception
propagates out of the (total) emit function. -/
theorem emit_event_invokes_all (handlers : List Handler) (arg : String) :
    invokedIds (emitEvent handlers arg) = handlers.map Handler.id := by
  induction handlers with
  | nil => rfl
  | cons h rest ih =>
      cases hr : h.run arg with
      | ok u => simp [emitEvent, hr, invokedIds, ih]
      | error msg => simp [emitEvent, hr, invokedIds, ih]

/-- Claim C10: `RetryConfig.__post_init__` raises `ValueError` exactly when
`max_attempts < 1`, a delay is negative, `initial_delay > max_delay`, or
`backoff_multiplier ≤ 0`; the default configuration
(3, 1000, 10000, 2.0) validates successfully. -/
theorem retry_config_post_init_iff :
    (∀ c : RetryConfig,
      exceptIsError (RetryConfig.postInit c) = true ↔
        (c.maxAttempts < 1 ∨ c.initialDelay < 0 ∨ c.maxDelay < 0 ∨
         c.initialDelay > c.maxDelay ∨ c.backoffMultiplier ≤ 0)) ∧
    RetryConfig.postInit
        { maxAttempts := 3, initialDelay := 1000, maxDelay := 10000,
          backoffMultiplier := 2 } =
      Except.ok
        { maxAttempts := 3, initialDelay := 1000, maxDelay := 10000,
          backoffMultiplier := 2 } := by
  constructor
  · intro c
    unfold RetryConfig.postInit
    split_ifs with h1 h2 h3 h4 <;>
      simp only [exceptIsError, Bool.or_eq_true, decide_eq_true_eq] at * <;>
      tauto
  · rfl

/-- The serving order `keyLE` is reflexive. -/
theorem keyLE_refl (a : WaitEntry) : a.keyLE a = true := by
  simp only [WaitEntry.keyLE, Bool.or_eq_true, Bool.and_eq_true,
    decide_eq_true_eq, beq_iff_eq, true_and, and_true]
  omega

/-- Strictly beating implies serving no later. -/
theorem keyLE_of_beats {a b : WaitEntry} (h : a.beats b = true) :
    a.keyLE b = true := by
  simp only [WaitEntry.beats, WaitEntry.keyLE, Bool.or_eq_true,
    Bool.and_eq_true, decide_eq_true_eq, beq_iff_eq, true_and, and_true] at h ⊢
  omega

/-- Entry `b` not strictly beating `a` is the same as `a` serving no later than
`b`: the key order is total. -/
theorem beats_false_iff_keyLE (a b : WaitEntry) :
    (b.beats a = false) ↔ (a.keyLE b = true) := by
  rw [← Bool.not_eq_true]
  simp only [WaitEntry.beats, WaitEntry.keyLE, Bool.or_eq_true,
    Bool.and_eq_true, decide_eq_true_eq, beq_iff_eq, true_and, and_true]
  omega

/-- The serving order `keyLE` is transitive. -/
theorem keyLE_trans {a b c : WaitEntry} (h1 : a.keyLE b = true)
    (h2 : b.keyLE c = true) : a.keyLE c = true := by
  simp only [WaitEntry.keyLE, Bool.or_eq_true, Bool.and_eq_true,
    decide_eq_true_eq, beq_iff_eq, true_and, and_true] at h1 h2 ⊢
  omega

/-- Unfolding `selectBest` over a cons cell when the new entry beats the
current best. -/
theorem selectBest_cons_beats (best e : WaitEntry) (rest : List WaitEntry)
    (hb : e.beats best = true) :
    selectBest best (e :: rest) = selectBest e rest := by
  show selectBest (if e.beats best then e else best) rest = selectBest e rest
  rw [hb]
  rfl

/-- Unfolding `selectBest` over a cons cell when the new entry does not beat
the current best. -/
theorem selectBest_cons_not_beats (best e : WaitEntry) (rest : List WaitEntry)
    (hb : e.beats best = false) :
    selectBest best (e :: rest) = selectBest best rest := by
  show selectBest (if e.beats best then e else best) rest = selectBest best rest
  rw [hb]
  rfl

/-- Function `selectBest` returns one of the scanned entries. -/
theorem selectBest_mem (best : WaitEntry) (rest : List WaitEntry) :
    selectBest best rest ∈ best :: rest := by
  induction rest generalizing best with
  | nil => simp [selectBest]
  | cons e rest ih =>
      cases hb : e.beats best with
      | true =>
          rw [selectBest_cons_beats best e rest hb]
          exact List.mem_cons_of_mem best (ih e)
      | false =>
          rw [selectBest_cons_not_beats best e rest hb]
          rcases List.mem_cons.mp (ih best) with h1 | h1
          · rw [h1]
            exact List.mem_cons_self _ _
          · exact List.mem_cons_of_mem _ (List.mem_cons_of_mem _ h1)

/-- The entry `selectBest` picks is served no later than every scanned entry. -/
theorem selectBest_keyLE (best : WaitEntry) (rest : List WaitEntry) :
    ∀ f ∈ best :: rest, (selectBest best rest).keyLE f = true := by
  induction rest generalizing best with
  | nil =>
      intro f hf
      rcases List.mem_cons.mp hf with h | h
      · rw [h]
        exact keyLE_refl _
      · exact absurd h (List.not_mem_nil f)
  | cons e rest ih =>
      intro f hf
      cases hb : e.beats best with
      | true =>
          rw [selectBest_cons_beats best e rest hb]
          rcases List.mem_cons.mp hf with h | h
          · rw [h]
            exact keyLE_trans (ih e e (List.mem_cons_self e rest))
              (keyLE_of_beats hb)
          · exact ih e f h
      | false =>
          rw [selectBest_cons_not_beats best e rest hb]
          rcases List.mem_cons.mp hf with h | h
          · rw [h]
            exact ih best best (List.mem_cons_self best rest)
          · rcases List.mem_cons.mp h with h' | h'
            · rw [h']
              exact keyLE_trans (ih best best (List.mem_cons_self best rest))
                ((beats_false_iff_keyLE best e).mp hb)
            · exact ih best f (List.mem_cons_of_mem best h')

/-- Draining with fuel equal to the queue length yields a permutation of the
queue that is sorted by the serving order. -/
theorem drainAux_spec (n : Nat) :
    ∀ q : List WaitEntry, q.length = n →
      (drainAux n q).Perm q ∧
      (drainAux n q).Pairwise (fun a b => a.keyLE b = true) := by
  induction n with
  | zero =>
      intro q hq
      rw [List.length_eq_zero] at hq
      subst hq
      exact ⟨List.Perm.refl _, List.Pairwise.nil⟩
  | succ n ih =>
      intro q hq
      cases q with
      | nil => exact absurd hq (by simp)
      | cons a rest =>
          have hd : drainAux (n + 1) (a :: rest) =
              selectBest a rest ::
                drainAux n ((a :: rest).erase (selectBest a rest)) := rfl
          have he : selectBest a rest ∈ a :: rest := selectBest_mem a rest
          have hlen : ((a :: rest).erase (selectBest a rest)).length = n := by
            rw [List.length_erase_of_mem he, hq]
            omega
          obtain ⟨ihp, ihs⟩ := ih ((a :: rest).erase (selectBest a rest)) hlen
          rw [hd]
          constructor
          · exact (List.Perm.cons _ ihp).trans
              (List.perm_cons_erase he).symm
          · exact List.Pairwise.cons
              (fun b hb => selectBest_keyLE a rest b
                (List.mem_of_mem_erase (ihp.mem_iff.mp hb)))
              ihs

/-- Claim C2 (WaitQueue modelled from the spec): repeatedly dequeuing any
queue returns all of its entries (a permutation) in the serving order
`(priority DESC, enqueued_at ASC)`; in particular entries with priorities
[1, 5, 3] enqueued in that order drain with priorities [5, 3, 1], and two
equal-priority entries drain in enqueue (FIFO) order. -/
theorem wait_queue_dequeue_order :
    (∀ q : List WaitEntry,
      (drain q).Perm q ∧
      (drain q).Pairwise (fun a b => a.keyLE b = true)) ∧
    (drain [{ participantId := "p1", priority := 1, enqueuedAt := 0 },
            { participantId := "p2", priority := 5, enqueuedAt := 1 },
            { participantId := "p3", priority := 3, enqueuedAt := 2 }]).map
        WaitEntry.priority = [5, 3, 1] ∧
    drain [{ participantId := "q1", priority := 2, enqueuedAt := 0 },
           { participantId := "q2", priority := 2, enqueuedAt := 1 }] =
      [{ participantId := "q1", priority := 2, enqueuedAt := 0 },
       { participantId := "q2", priority := 2, enqueuedAt := 1 }] := by
  refine ⟨fun q => drainAux_spec q.length q rfl, ?_, ?_⟩ <;> decide

end AITuberTalk
